import Mathlib

/-!
Verification of the authentication layer of the cetera-media blog CMS.

Part A embeds the credential utilities of `src/lib/auth.ts`
(`hashPassword`, `verifyPassword` and their base64 packing via
`btoa`/`atob`); binary strings are lists of byte values (`List Nat`,
each `< 256`) and the PBKDF2 primitive — a Web Crypto platform call,
not repository code — is an abstract parameter `kdf` applied with the
source's literal parameters (100000 iterations, 256 bits).

Part B embeds the in-memory `AuthService` of `tests/api/auth.test.ts`:
users and sessions live in JS `Map`s, modelled as lists in insertion
order with `Map.set`/`Map.delete` semantics; timestamps are
milliseconds (`Nat`), matching the numeric comparison of `Date`
values in the source.
-/

/-- The standard base64 alphabet used by `btoa`/`atob`. -/
def b64alphabet : List Char :=
  "ABCDEFGHIJKLMNOPQRSTUVWXYZabcdefghijklmnopqrstuvwxyz0123456789+/".toList

/-- Character for a sextet value (total with a junk default, used only below 64). -/
def b64chr (n : Nat) : Char := b64alphabet.getD n '?'

def b64idxAux : List Char → Char → Nat → Option Nat
  | [], _, _ => none
  | x :: xs, c, k => if x = c then some k else b64idxAux xs c (k + 1)

/-- Index of a character in the base64 alphabet, `none` for a non-alphabet char. -/
def b64idx (c : Char) : Option Nat := b64idxAux b64alphabet c 0

/-- `btoa` on a binary string: 3 bytes become 4 sextet characters, with
`=` padding for a trailing group of 1 or 2 bytes. -/
def b64encode : List Nat → List Char
  | [] => []
  | [a] => [b64chr (a / 4), b64chr (a % 4 * 16), '=', '=']
  | [a, b] => [b64chr (a / 4), b64chr (a % 4 * 16 + b / 16), b64chr (b % 16 * 4), '=']
  | a :: b :: c :: rest =>
      b64chr (a / 4) :: b64chr (a % 4 * 16 + b / 16) ::
      b64chr (b % 16 * 4 + c / 64) :: b64chr (c % 64) :: b64encode rest

/-- `atob`: decodes 4 characters to 3 bytes, accepting `=` padding only at
the very end; `none` models the `InvalidCharacterError` thrown on malformed
input (length not a multiple of 4, characters outside the alphabet,
misplaced padding). -/
def b64decode : List Char → Option (List Nat)
  | [] => some []
  | c1 :: c2 :: c3 :: c4 :: rest =>
    match b64idx c1, b64idx c2 with
    | some s1, some s2 =>
      if c3 = '=' then
        if c4 = '=' ∧ rest = [] then some [s1 * 4 + s2 / 16] else none
      else
        match b64idx c3 with
        | some s3 =>
          if c4 = '=' then
            if rest = [] then some [s1 * 4 + s2 / 16, s2 % 16 * 16 + s3 / 4] else none
          else
            match b64idx c4 with
            | some s4 =>
              match b64decode rest with
              | some tl => some ((s1 * 4 + s2 / 16) :: (s2 % 16 * 16 + s3 / 4) :: (s3 % 4 * 64 + s4) :: tl)
              | none => none
            | none => none
        | none => none
    | _, _ => none
  | _ => none

/-- The byte-comparison loop of `verifyPassword`
(`for i ...: if (storedHash[i] !== testHashArray[i]) return false`),
run after the length check has passed. -/
def compareBytes : List Nat → List Nat → Bool
  | a :: as, b :: bs => if a ≠ b then false else compareBytes as bs
  | _, _ => true

/-- Number of iterations the comparison loop of `verifyPassword` executes
before returning (instrumentation of `compareBytes` for the timing claim). -/
def compareSteps : List Nat → List Nat → Nat
  | a :: as, b :: bs => if a ≠ b then 1 else 1 + compareSteps as bs
  | _, _ => 0

/-- Length of the matching initial run of two byte lists. -/
def matchingRun : List Nat → List Nat → Nat
  | a :: as, b :: bs => if a = b then 1 + matchingRun as bs else 0
  | _, _ => 0

/-- `hashPassword` of `src/lib/auth.ts`: a 16-byte random salt (passed in
as a parameter, as it comes from `crypto.getRandomValues`) is prepended to
the PBKDF2-SHA-256 derivation (100000 iterations, 256 bits) and the result
is base64-encoded with `btoa`. `kdf password salt iterations bits` is the
abstract `crypto.subtle.deriveBits` primitive. -/
def hashPassword (kdf : String → List Nat → Nat → Nat → List Nat)
    (salt : List Nat) (password : String) : List Char :=
  b64encode (salt ++ kdf password salt 100000 256)

/-- `verifyPassword` of `src/lib/auth.ts`: base64-decode the stored value,
take bytes 0..15 as the salt and the rest as the stored derived bytes,
re-derive with identical parameters and compare; any decode failure is
caught by the `try`/`catch` and yields `false`. -/
def verifyPassword (kdf : String → List Nat → Nat → Nat → List Nat)
    (password : String) (hash : List Char) : Bool :=
  match b64decode hash with
  | none => false
  | some saltAndHash =>
    let salt := saltAndHash.take 16
    let storedHash := saltAndHash.drop 16
    let testHash := kdf password salt 100000 256
    if storedHash.length = testHash.length then compareBytes storedHash testHash else false

/-- Comparison-loop iteration count of a `verifyPassword` run (0 when the
run returns before reaching the loop). -/
def verifyCompareSteps (kdf : String → List Nat → Nat → Nat → List Nat)
    (password : String) (hash : List Char) : Nat :=
  match b64decode hash with
  | none => 0
  | some saltAndHash =>
    let salt := saltAndHash.take 16
    let storedHash := saltAndHash.drop 16
    let testHash := kdf password salt 100000 256
    if storedHash.length = testHash.length then compareSteps storedHash testHash else 0

/-- A fixed toy key-derivation function used for concrete evaluations. -/
def kdfZero : String → List Nat → Nat → Nat → List Nat :=
  fun _ _ _ _ => List.replicate 32 0

/-! ### Part B: the in-memory `AuthService` of `tests/api/auth.test.ts` -/

/-- The `User` record of the auth service. `role` is a `String` as the
permission table is keyed by arbitrary strings at runtime; timestamps are
milliseconds. -/
structure User where
  id : Nat
  email : String
  password_hash : String
  name : String
  role : String
  created_at : Nat
  last_login : Option Nat
deriving Repr, DecidableEq

/-- The `Session` record of the auth service. -/
structure Session where
  id : String
  user_id : Nat
  expires_at : Nat
  created_at : Nat
  ip_address : Option String
  user_agent : Option String
deriving Repr, DecidableEq

/-- The user view returned by `login`: `const { password_hash, ...safeUser } = user`
removes exactly the `password_hash` field. -/
structure SafeUser where
  id : Nat
  email : String
  name : String
  role : String
  created_at : Nat
  last_login : Option Nat
deriving Repr, DecidableEq

/-- Projection performed by `login`'s destructuring assignment. -/
def safeUserOf (u : User) : SafeUser :=
  { id := u.id, email := u.email, name := u.name, role := u.role,
    created_at := u.created_at, last_login := u.last_login }

/-- The mutable state of an `AuthService` instance: the two JS `Map`s
(`users`, `sessions`) in insertion order, and the id counter. -/
structure AuthState where
  users : List User
  sessions : List Session
  nextUserId : Nat
deriving Repr, DecidableEq

/-- `sessionTTL = 7 * 24 * 60 * 60 * 1000` (7 days in ms). -/
def sessionTTL : Nat := 7 * 24 * 60 * 60 * 1000

/-- `Map.set` on the users map (keyed by `id`): overwrite in place when the
key exists, append otherwise. -/
def usersSet (l : List User) (u : User) : List User :=
  if l.any (fun v => v.id == u.id) then l.map (fun v => if v.id == u.id then u else v)
  else l ++ [u]

/-- `Map.set` on the sessions map (keyed by `id`). -/
def sessionsSet (l : List Session) (s : Session) : List Session :=
  if l.any (fun t => t.id == s.id) then l.map (fun t => if t.id == s.id then s else t)
  else l ++ [s]

/-- `sessions.get(sessionId)`. -/
def findSession (st : AuthState) (sid : String) : Option Session :=
  st.sessions.find? (fun s => s.id == sid)

/-- `users.get(userId)`. -/
def findUser (st : AuthState) (uid : Nat) : Option User :=
  st.users.find? (fun u => u.id == uid)

/-- The `for (const u of this.users.values())` email lookup of `login`. -/
def findUserByEmail (st : AuthState) (email : String) : Option User :=
  st.users.find? (fun u => u.email == email)

/-- The mock `hashPassword` of the test service. -/
def mockHashPassword (p : String) : String := "hashed_" ++ p

/-- The mock `verifyPassword` of the test service. -/
def mockVerifyPassword (p h : String) : Bool := ("hashed_" ++ p) == h

/-- A character allowed by `[^\s@]` of the email regex. -/
def emailOk (c : Char) : Bool := !c.isWhitespace && !(c == '@')

/-- `validateEmail`: the regex `^[^\s@]+@[^\s@]+\.[^\s@]+$` — a non-empty
run of non-space non-`@` characters, an `@`, then a domain of non-space
non-`@` characters containing a `.` that is neither its first nor its last
character. -/
def validateEmail (email : String) : Bool :=
  let cs := email.data
  let localPart := cs.takeWhile (fun c => !(c == '@'))
  match cs.dropWhile (fun c => !(c == '@')) with
  | '@' :: domainPart =>
      !localPart.isEmpty && localPart.all emailOk && domainPart.all emailOk &&
      ((domainPart.drop 1).dropLast.contains '.')
  | _ => false

/-- `validatePassword`: pushes one message per violated rule, in source
order (length, uppercase, lowercase, digit), and is valid iff no message
was pushed. The character classes `[A-Z]`, `[a-z]`, `[0-9]` are ASCII. -/
def validatePassword (p : String) : Bool × List String :=
  let errors :=
    (if p.length < 8 then ["Password must be at least 8 characters"] else []) ++
    (if p.data.any (fun c => 'A' ≤ c && c ≤ 'Z') then []
     else ["Password must contain an uppercase letter"]) ++
    (if p.data.any (fun c => 'a' ≤ c && c ≤ 'z') then []
     else ["Password must contain a lowercase letter"]) ++
    (if p.data.any (fun c => '0' ≤ c && c ≤ '9') then []
     else ["Password must contain a number"])
  (errors.isEmpty, errors)

/-- `createUser`: validate the email, validate the password (failing with
the comma-joined full list), reject an exact duplicate email, then insert
the user with `role` defaulting to `"author"` and a fresh id. -/
def createUser (st : AuthState) (now : Nat) (email password name : String)
    (role : Option String) : Except String (User × AuthState) :=
  if validateEmail email = false then Except.error "Invalid email format"
  else
    let pv := validatePassword password
    if pv.1 = false then Except.error (String.intercalate ", " pv.2)
    else if st.users.any (fun u => u.email == email) then Except.error "Email already exists"
    else
      let user : User :=
        { id := st.nextUserId, email := email, password_hash := mockHashPassword password,
          name := name, role := role.getD "author", created_at := now, last_login := none }
      Except.ok (user, { st with users := usersSet st.users user, nextUserId := st.nextUserId + 1 })

/-- `login`: look up by email; absent email and failed verification both
raise the same `'Invalid credentials'`; on success set `last_login := now`,
store a session `{id := tok, expires_at := now + sessionTTL, ...}` and
return the password-hash-free user view together with the session. The
session id `tok` comes from `generateSessionId()` and is passed in as a
parameter. -/
def login (st : AuthState) (now : Nat) (tok : String) (email password : String)
    (ip ua : Option String) : Except String (SafeUser × Session × AuthState) :=
  match st.users.find? (fun u => u.email == email) with
  | none => Except.error "Invalid credentials"
  | some user =>
    if mockVerifyPassword password user.password_hash = false then
      Except.error "Invalid credentials"
    else
      let user' := { user with last_login := some now }
      let session : Session :=
        { id := tok, user_id := user.id, expires_at := now + sessionTTL,
          created_at := now, ip_address := ip, user_agent := ua }
      Except.ok (safeUserOf user', session,
        { st with users := usersSet st.users user', sessions := sessionsSet st.sessions session })

/-- `logout`: `sessions.delete(sessionId)` — returns whether the entry
existed and removes it; never throws. -/
def logout (st : AuthState) (sid : String) : Bool × AuthState :=
  (st.sessions.any (fun s => s.id == sid),
   { st with sessions := st.sessions.filter (fun s => !(s.id == sid)) })

/-- `validateSession`: absent token gives `null`; a session with
`expires_at < now` is deleted ("reap on read") and gives `null`; otherwise
the full `User` record from the users map (or `null` if the user id is
gone). -/
def validateSession (st : AuthState) (now : Nat) (sid : String) : Option User × AuthState :=
  match st.sessions.find? (fun s => s.id == sid) with
  | none => (none, st)
  | some session =>
    if session.expires_at < now then
      (none, { st with sessions := st.sessions.filter (fun s => !(s.id == sid)) })
    else
      (st.users.find? (fun u => u.id == session.user_id), st)

/-- `refreshSession`: absent token gives `null`; otherwise — with no expiry
check — sets `expires_at := now + sessionTTL` on the stored session and
returns it. -/
def refreshSession (st : AuthState) (now : Nat) (sid : String) : Option Session × AuthState :=
  match st.sessions.find? (fun s => s.id == sid) with
  | none => (none, st)
  | some session =>
    let session' := { session with expires_at := now + sessionTTL }
    (some session',
     { st with sessions := st.sessions.map (fun s => if s.id == sid then session' else s) })

/-- Result of the JS property read `permissions[user.role]` on the object
literal of `hasPermission`: an own property is one of the three action
arrays; a property lookup that misses the own properties walks the
prototype chain, so a role naming an `Object.prototype` member finds the
inherited value — defined, but without an `includes` method; any other
role finds `undefined`. -/
inductive PermRow where
  | table (l : List String)
  | protoMember
  | undef
deriving Repr, DecidableEq

/-- The property names of `Object.prototype` (ECMA-262 §20.1.3, with the
Annex B accessors): a plain object literal inherits exactly these. -/
def objectProtoNames : List String :=
  ["constructor", "hasOwnProperty", "isPrototypeOf", "propertyIsEnumerable",
   "toLocaleString", "toString", "valueOf", "__proto__",
   "__defineGetter__", "__defineSetter__", "__lookupGetter__", "__lookupSetter__"]

/-- The lookup `permissions[user.role]`, prototype chain included: an own
row shadows the prototype; otherwise an inherited `Object.prototype`
member is found; otherwise `undefined`. -/
def rolePermissions (role : String) : PermRow :=
  if role == "admin" then
    PermRow.table ["create", "read", "update", "delete", "publish", "manage_users"]
  else if role == "editor" then
    PermRow.table ["create", "read", "update", "delete", "publish"]
  else if role == "author" then
    PermRow.table ["create", "read", "update"]
  else if objectProtoNames.contains role then PermRow.protoMember
  else PermRow.undef

/-- `hasPermission`: `permissions[user.role]?.includes(action) || false`.
On a table row this is array membership; on `undefined` the optional
chain short-circuits and `|| false` yields `false`; but on an inherited
`Object.prototype` member the chain does not short-circuit, `.includes`
is `undefined`, and calling it throws a `TypeError`, modelled as
`Except.error "TypeError"`. -/
def hasPermission (u : User) (action : String) : Except String Bool :=
  match rolePermissions u.role with
  | PermRow.table l => Except.ok (l.contains action)
  | PermRow.protoMember => Except.error "TypeError"
  | PermRow.undef => Except.ok false

/-- A user record with the given role and fixed other fields, for claims
that only depend on the role. -/
def userWithRole (role : String) : User :=
  { id := 1, email := "u@example.com", password_hash := "hash", name := "U",
    role := role, created_at := 0, last_login := none }

/-- The empty service state (`new AuthService()`). -/
def emptyAuthState : AuthState := { users := [], sessions := [], nextUserId := 1 }

/-- A concrete session with expiry `e`, for counterexamples and witnesses. -/
def sess0 (e : Nat) : Session :=
  { id := "tok", user_id := 1, expires_at := e, created_at := 0,
    ip_address := none, user_agent := none }

/-- A concrete state holding one author user (id 1) and one session for it
with expiry `e`. -/
def stateWithSession (e : Nat) : AuthState :=
  { users := [userWithRole "author"], sessions := [sess0 e], nextUserId := 2 }

/-- The state after registering `a@b.com` in the empty state. -/
def oneUserState : AuthState :=
  match createUser emptyAuthState 0 "a@b.com" "Secure123" "A" none with
  | Except.ok (_, st) => st
  | Except.error _ => emptyAuthState

/-- The user record created by that registration. -/
def aliceUser : User :=
  { id := 1, email := "a@b.com", password_hash := "hashed_Secure123", name := "A",
    role := "author", created_at := 0, last_login := none }

/-- The state after `aliceUser` logs in at time 3 with token `t0`. -/
def postLoginState : AuthState :=
  match login oneUserState 3 "t0" "a@b.com" "Secure123" none none with
  | Except.ok (_, _, st) => st
  | Except.error _ => emptyAuthState

/-! ### Shared helper lemmas -/

theorem b64idx_chr_fin : ∀ n : Fin 64, b64idx (b64chr n.val) = some n.val := by decide

theorem b64idx_pad : b64idx '=' = none := by decide

theorem b64idx_chr_of_lt {n : Nat} (h : n < 64) : b64idx (b64chr n) = some n := by
  have h1 := b64idx_chr_fin ⟨n, h⟩
  simpa using h1

theorem b64chr_ne_pad {n : Nat} (h : n < 64) : b64chr n ≠ '=' := by
  intro he
  have h1 := b64idx_chr_of_lt h
  rw [he, b64idx_pad] at h1
  exact Option.noConfusion h1

theorem b64decode_encode : ∀ bs : List Nat, (∀ x ∈ bs, x < 256) →
    b64decode (b64encode bs) = some bs
  | [], _ => rfl
  | [a], h => by
    have ha : a < 256 := h a (by simp)
    have h1 := b64idx_chr_of_lt (n := a / 4) (by omega)
    have h2 := b64idx_chr_of_lt (n := a % 4 * 16) (by omega)
    simp only [b64encode, b64decode, h1, h2]
    simp
    omega
  | [a, b], h => by
    have ha : a < 256 := h a (by simp)
    have hb : b < 256 := h b (by simp)
    have h1 := b64idx_chr_of_lt (n := a / 4) (by omega)
    have h2 := b64idx_chr_of_lt (n := a % 4 * 16 + b / 16) (by omega)
    have h3 := b64idx_chr_of_lt (n := b % 16 * 4) (by omega)
    have h3ne := b64chr_ne_pad (n := b % 16 * 4) (by omega)
    simp only [b64encode, b64decode, h1, h2, h3]
    simp [h3ne]
    omega
  | a :: b :: c :: rest, h => by
    have ha : a < 256 := h a (by simp)
    have hb : b < 256 := h b (by simp)
    have hc : c < 256 := h c (by simp)
    have ih := b64decode_encode rest (fun x hx => h x (by simp [hx]))
    have h1 := b64idx_chr_of_lt (n := a / 4) (by omega)
    have h2 := b64idx_chr_of_lt (n := a % 4 * 16 + b / 16) (by omega)
    have h3 := b64idx_chr_of_lt (n := b % 16 * 4 + c / 64) (by omega)
    have h4 := b64idx_chr_of_lt (n := c % 64) (by omega)
    have h3ne := b64chr_ne_pad (n := b % 16 * 4 + c / 64) (by omega)
    have h4ne := b64chr_ne_pad (n := c % 64) (by omega)
    simp only [b64encode, b64decode, h1, h2, h3, h4, ih]
    simp [h3ne, h4ne]
    omega

theorem compareBytes_self : ∀ l : List Nat, compareBytes l l = true
  | [] => rfl
  | a :: as => by simp [compareBytes, compareBytes_self as]

theorem find?_filter_out (l : List Session) (sid : String) :
    (l.filter (fun s => !(s.id == sid))).find? (fun s => s.id == sid) = none := by
  induction l with
  | nil => rfl
  | cons a t ih =>
    by_cases h : a.id = sid
    · simp [List.filter_cons, h, ih]
    · simp [List.filter_cons, h, List.find?_cons, ih]

theorem any_filter_out (l : List Session) (sid : String) :
    (l.filter (fun s => !(s.id == sid))).any (fun s => s.id == sid) = false := by
  induction l with
  | nil => rfl
  | cons a t ih =>
    by_cases h : a.id = sid
    · simp [List.filter_cons, h, ih]
    · simp [List.filter_cons, h, ih]

theorem find?_session_map : ∀ (l : List Session) (sid : String) (s s' : Session),
    l.find? (fun t => t.id == sid) = some s → s'.id = sid →
    (l.map (fun t => if t.id == sid then s' else t)).find? (fun t => t.id == sid) = some s'
  | [], _, _, _, hs, _ => by simp at hs
  | a :: t, sid, s, s', hs, hid => by
    by_cases h : a.id = sid
    · have hmap : (a :: t).map (fun t => if t.id == sid then s' else t) =
          s' :: t.map (fun t => if t.id == sid then s' else t) := by
        simp [h]
      rw [hmap]
      exact List.find?_cons_of_pos _ (by simp [hid])
    · have hmap : (a :: t).map (fun t => if t.id == sid then s' else t) =
          a :: t.map (fun t => if t.id == sid then s' else t) := by
        simp [h]
      rw [List.find?_cons_of_neg _ (by simp [h])] at hs
      rw [hmap, List.find?_cons_of_neg _ (by simp [h])]
      exact find?_session_map t sid s s' hs hid

theorem find?_append_single (l : List Session) (p : Session → Bool) (x : Session)
    (h : l.find? p = none) (hx : p x = true) : (l ++ [x]).find? p = some x := by
  induction l with
  | nil => simp [List.find?, hx]
  | cons a t ih =>
    have ha : ¬ p a = true := by
      intro hpa
      rw [List.find?_cons_of_pos _ hpa] at h
      exact Option.noConfusion h
    rw [List.find?_cons_of_neg _ ha] at h
    rw [List.cons_append, List.find?_cons_of_neg _ ha]
    exact ih h

theorem find?_user_map : ∀ (l : List User) (uid : Nat) (u' : User), u'.id = uid →
    (∃ v ∈ l, v.id = uid) →
    (l.map (fun v => if v.id == uid then u' else v)).find? (fun v => v.id == uid) = some u'
  | [], _, _, _, hmem => by simp at hmem
  | a :: t, uid, u', hid, hmem => by
    by_cases h : a.id = uid
    · have hmap : (a :: t).map (fun v => if v.id == uid then u' else v) =
          u' :: t.map (fun v => if v.id == uid then u' else v) := by
        simp [h]
      rw [hmap]
      exact List.find?_cons_of_pos _ (by simp [hid])
    · have hmap : (a :: t).map (fun v => if v.id == uid then u' else v) =
          a :: t.map (fun v => if v.id == uid then u' else v) := by
        simp [h]
      have hmem' : ∃ v ∈ t, v.id = uid := by
        rcases hmem with ⟨v, hv, hvid⟩
        rcases List.mem_cons.1 hv with rfl | hvt
        · exact absurd hvid h
        · exact ⟨v, hvt, hvid⟩
      rw [hmap, List.find?_cons_of_neg _ (by simp [h])]
      exact find?_user_map t uid u' hid hmem'

theorem beq_decide (a b : String) : (a == b) = decide (a = b) := by
  by_cases h : a = b <;> simp [h]

/-! ### Claim theorems -/

/-- C1: for every password `p`, any 16-byte salt and any derivation
producing 32 bytes, `verifyPassword p (hashPassword p)` succeeds: the salt
prepended by `hashPassword` is recovered by the base64 decode and the
16-byte slice, and re-derivation with the same PBKDF2 parameters
reproduces the stored derived bytes, so the comparison loop sees two equal
arrays. -/
theorem verify_of_hash (kdf : String → List Nat → Nat → Nat → List Nat)
    (salt : List Nat) (p : String)
    (hsalt : salt.length = 16) (hsb : ∀ x ∈ salt, x < 256)
    (hdl : (kdf p salt 100000 256).length = 32)
    (hdb : ∀ x ∈ kdf p salt 100000 256, x < 256) :
    verifyPassword kdf p (hashPassword kdf salt p) = true := by
  have hb : ∀ x ∈ salt ++ kdf p salt 100000 256, x < 256 := by
    intro x hx
    rcases List.mem_append.1 hx with h | h
    · exact hsb x h
    · exact hdb x h
  have ht : (salt ++ kdf p salt 100000 256).take 16 = salt := by
    rw [← hsalt]; exact List.take_left _ _
  have hd : (salt ++ kdf p salt 100000 256).drop 16 = kdf p salt 100000 256 := by
    rw [← hsalt]; exact List.drop_left _ _
  have hlen : (kdf p salt 100000 256).length = 32 := hdl
  simp only [verifyPassword, hashPassword, b64decode_encode _ hb, ht, hd]
  simp [compareBytes_self]

/-- C1 witness: a concrete run with the toy KDF and the all-zero salt. -/
theorem verify_of_hash_witness :
    (List.replicate 16 0 : List Nat).length = 16 ∧
    verifyPassword kdfZero "pw" (hashPassword kdfZero (List.replicate 16 0) "pw") = true :=
  ⟨by decide,
   verify_of_hash kdfZero (List.replicate 16 0) "pw" (by decide) (by decide)
     (by decide) (by decide)⟩

/-- C2 counterexample: at `now = expires_at` the claim's validity condition
`now < expires_at` is false, yet `validateSession` — whose expiry test is
`expires_at < now` — still returns the owning user. -/
theorem validateSession_boundary_cex :
    findSession (stateWithSession 5) "tok" = some (sess0 5) ∧
    ¬ (5 : Nat) < (sess0 5).expires_at ∧
    (validateSession (stateWithSession 5) 5 "tok").1 = some (userWithRole "author") := by
  decide

/-- C2 amended: a session lookup returns the owning user iff the session
exists, is not expired under the code's strict test (`expires_at < now`,
so a lookup exactly at the expiry instant still succeeds), and the user
record is present; when the session exists but has expired, the lookup
deletes the entry so a second lookup of the same token also returns none. -/
theorem validateSession_spec (st : AuthState) (now : Nat) (sid : String) :
    (findSession st sid = none → validateSession st now sid = (none, st)) ∧
    (∀ s, findSession st sid = some s → ¬ s.expires_at < now →
      validateSession st now sid = (findUser st s.user_id, st)) ∧
    (∀ s, findSession st sid = some s → s.expires_at < now →
      (validateSession st now sid).1 = none ∧
      findSession (validateSession st now sid).2 sid = none ∧
      (validateSession (validateSession st now sid).2 now sid).1 = none) := by
  refine ⟨?_, ?_, ?_⟩
  · intro h
    simp only [findSession] at h
    simp only [validateSession]
    rw [h]
  · intro s hs hexp
    simp only [findSession] at hs
    simp [validateSession, hs, hexp, findUser]
  · intro s hs hexp
    simp only [findSession] at hs
    have hred : validateSession st now sid =
        (none, { st with sessions := st.sessions.filter (fun s => !(s.id == sid)) }) := by
      simp [validateSession, hs, hexp]
    rw [hred]
    refine ⟨rfl, ?_, ?_⟩
    · simp only [findSession]
      exact find?_filter_out st.sessions sid
    · simp only [validateSession]
      rw [find?_filter_out]

/-- C2 witness: the expired branch on a concrete expired session. -/
theorem validateSession_spec_witness :
    (validateSession (stateWithSession 0) 100 "tok").1 = none ∧
    findSession (validateSession (stateWithSession 0) 100 "tok").2 "tok" = none ∧
    (validateSession ((validateSession (stateWithSession 0) 100 "tok").2) 100 "tok").1 = none :=
  (validateSession_spec (stateWithSession 0) 100 "tok").2.2 (sess0 0) (by decide) (by decide)

/-- C3 counterexample: on a session that is already expired
(`expires_at = 0 < now = 100`), `refreshSession` does not fail — it
extends the expiry to `now + sessionTTL`, returns the session, and
mutates the store. -/
theorem refreshSession_expired_cex :
    findSession (stateWithSession 0) "tok" = some (sess0 0) ∧
    (sess0 0).expires_at < 100 ∧
    (refreshSession (stateWithSession 0) 100 "tok").1 =
      some { sess0 0 with expires_at := 100 + sessionTTL } ∧
    (refreshSession (stateWithSession 0) 100 "tok").2 ≠ stateWithSession 0 := by
  decide

/-- C3 amended: `refreshSession` extends `expires_at` to `now + sessionTTL`
and returns the updated session whenever the token exists — with no expiry
check, so even an expired session is revived; only for an absent token does
it return none and leave the store unchanged. -/
theorem refreshSession_spec (st : AuthState) (now : Nat) (sid : String) :
    (findSession st sid = none → refreshSession st now sid = (none, st)) ∧
    (∀ s, findSession st sid = some s →
      (refreshSession st now sid).1 = some { s with expires_at := now + sessionTTL } ∧
      findSession (refreshSession st now sid).2 sid =
        some { s with expires_at := now + sessionTTL }) := by
  constructor
  · intro h
    simp only [findSession] at h
    simp [refreshSession, h]
  · intro s hs
    simp only [findSession] at hs
    have hsid : s.id = sid := by simpa using List.find?_some hs
    constructor
    · simp [refreshSession, hs]
    · simp only [refreshSession, hs, findSession]
      exact find?_session_map st.sessions sid s _ hs hsid

/-- C3 witness: refreshing a live session at a concrete state. -/
theorem refreshSession_spec_witness :
    (refreshSession (stateWithSession 50) 10 "tok").1 =
      some { sess0 50 with expires_at := 10 + sessionTTL } ∧
    findSession (refreshSession (stateWithSession 50) 10 "tok").2 "tok" =
      some { sess0 50 with expires_at := 10 + sessionTTL } :=
  (refreshSession_spec (stateWithSession 50) 10 "tok").2 (sess0 50) (by decide)

/-- C4 counterexample: after registering `a@b.com`, registering `A@b.com`
— the same email up to letter case — does not fail with the duplicate-email
error: it succeeds and the store ends up with two users. -/
theorem createUser_case_cex :
    oneUserState.users.map (fun u => u.email) = ["a@b.com"] ∧
    ("A@b.com" : String) ≠ "a@b.com" ∧
    "A@b.com".data.map Char.toLower = "a@b.com".data ∧
    (createUser oneUserState 1 "A@b.com" "Secure123" "B" none).toOption.map
      (fun p => p.2.users.length) = some 2 := by
  decide

/-- C4 amended: the uniqueness check compares emails with exact
(case-sensitive) string equality: given a well-formed email and a valid
password, `createUser` fails with the duplicate-email error iff some
existing user's email is exactly equal to the given one — an email
differing only in case passes the check and a second user is created. -/
theorem createUser_exact_dup (st : AuthState) (now : Nat) (email pw name : String)
    (role : Option String)
    (h1 : validateEmail email = true) (h2 : (validatePassword pw).1 = true) :
    createUser st now email pw name role = Except.error "Email already exists" ↔
      st.users.any (fun u => u.email == email) = true := by
  by_cases hany : st.users.any (fun u => u.email == email) = true
  · simp [createUser, h1, h2, hany]
  · simp [createUser, h1, h2, hany]

/-- C4 witness: the exact-duplicate direction at a concrete state. -/
theorem createUser_exact_dup_witness :
    createUser oneUserState 2 "a@b.com" "Secure123" "C" none =
        Except.error "Email already exists" ↔
      oneUserState.users.any (fun u => u.email == "a@b.com") = true :=
  createUser_exact_dup oneUserState 2 "a@b.com" "Secure123" "C" none (by decide) (by decide)

/-- C5: a login failing because the email is unknown and a login failing
because the password is wrong for an existing email produce exactly the
same error value, the single generic `'Invalid credentials'`, so the two
failure causes are indistinguishable by the returned message. -/
theorem login_generic_error (st : AuthState) (now : Nat) (tok email pw : String)
    (ip ua : Option String) :
    (findUserByEmail st email = none →
      login st now tok email pw ip ua = Except.error "Invalid credentials") ∧
    (∀ u, findUserByEmail st email = some u → mockVerifyPassword pw u.password_hash = false →
      login st now tok email pw ip ua = Except.error "Invalid credentials") := by
  constructor
  · intro h
    simp only [findUserByEmail] at h
    simp [login, h]
  · intro u hu hv
    simp only [findUserByEmail] at hu
    simp [login, hu, hv]

/-- C5 witness: both failure paths at a concrete one-user state. -/
theorem login_generic_error_witness :
    login oneUserState 3 "t" "x@y.com" "Secure123" none none =
      Except.error "Invalid credentials" ∧
    login oneUserState 3 "t" "a@b.com" "Wrong1234" none none =
      Except.error "Invalid credentials" :=
  ⟨(login_generic_error oneUserState 3 "t" "x@y.com" "Secure123" none none).1 (by decide),
   (login_generic_error oneUserState 3 "t" "a@b.com" "Wrong1234" none none).2 aliceUser
     (by decide) (by decide)⟩

/-- C6: `validatePassword` reports the complete list of violated rules —
each of the four messages is present iff its rule is violated — and in
particular `"short1"` yields both the length and the uppercase violations. -/
theorem validatePassword_complete (p : String) :
    (("Password must be at least 8 characters" ∈ (validatePassword p).2) ↔ p.length < 8) ∧
    (("Password must contain an uppercase letter" ∈ (validatePassword p).2) ↔
      p.data.any (fun c => 'A' ≤ c && c ≤ 'Z') = false) ∧
    (("Password must contain a lowercase letter" ∈ (validatePassword p).2) ↔
      p.data.any (fun c => 'a' ≤ c && c ≤ 'z') = false) ∧
    (("Password must contain a number" ∈ (validatePassword p).2) ↔
      p.data.any (fun c => '0' ≤ c && c ≤ '9') = false) ∧
    (validatePassword "short1").2 =
      ["Password must be at least 8 characters", "Password must contain an uppercase letter"] := by
  refine ⟨?_, ?_, ?_, ?_, by decide⟩ <;>
    · by_cases h1 : p.length < 8 <;>
        by_cases h2 : p.data.any (fun c => 'A' ≤ c && c ≤ 'Z') = true <;>
          by_cases h3 : p.data.any (fun c => 'a' ≤ c && c ≤ 'z') = true <;>
            by_cases h4 : p.data.any (fun c => '0' ≤ c && c ≤ '9') = true <;>
              simp +decide [validatePassword, h1, h2, h3, h4]

/-- C7: `logout` is total (it returns a boolean rather than raising), a
token validated after its logout always yields none, and logging out twice
is the same as logging out once (the second call reports `false` and
leaves the state of the first call unchanged). -/
theorem logout_validate_none (st : AuthState) (sid : String) (now : Nat) :
    (validateSession (logout st sid).2 now sid).1 = none ∧
    (logout (logout st sid).2 sid).1 = false ∧
    (logout (logout st sid).2 sid).2 = (logout st sid).2 := by
  refine ⟨?_, ?_, ?_⟩
  · simp only [validateSession, logout]
    rw [find?_filter_out]
  · simp [logout, any_filter_out]
  · simp [logout, List.filter_filter]

/-- C8 counterexample: `toString` is none of the three table roles, yet
`hasPermission` on a user with role `toString` does not return false — the
lookup finds the inherited `Object.prototype.toString`, the optional chain
does not short-circuit, and `.includes(action)` throws a `TypeError`. -/
theorem hasPermission_proto_cex :
    ¬ ("toString" : String) = "admin" ∧ ¬ ("toString" : String) = "editor" ∧
    ¬ ("toString" : String) = "author" ∧
    hasPermission (userWithRole "toString") "create" = Except.error "TypeError" :=
  ⟨by decide, by decide, by decide, rfl⟩

/-- C8 amended: `hasPermission` is membership in the static role table —
admin's row is exactly editor's plus `manage_users`, editor's is exactly
author's plus `delete` and `publish`, author's is exactly
`create`/`read`/`update` — and for a role outside the table the object
lookup walks the prototype chain: a role that is not an `Object.prototype`
property name yields `undefined` and the function returns false for every
action, but a role naming an inherited `Object.prototype` member makes
`permissions[user.role]?.includes(action)` throw a `TypeError` instead of
returning false. -/
theorem hasPermission_table (u v w z zp : User) (a : String)
    (hu : u.role = "admin") (hv : v.role = "editor") (hw : w.role = "author")
    (hz1 : ¬ z.role = "admin") (hz2 : ¬ z.role = "editor") (hz3 : ¬ z.role = "author")
    (hz4 : objectProtoNames.contains z.role = false)
    (hp1 : ¬ zp.role = "admin") (hp2 : ¬ zp.role = "editor") (hp3 : ¬ zp.role = "author")
    (hp4 : objectProtoNames.contains zp.role = true) :
    hasPermission u a = (hasPermission v a).map (fun b => b || a == "manage_users") ∧
    hasPermission v a = (hasPermission w a).map (fun b => b || a == "delete" || a == "publish") ∧
    hasPermission w a = Except.ok (a == "create" || a == "read" || a == "update") ∧
    hasPermission v "manage_users" = Except.ok false ∧
    hasPermission w "delete" = Except.ok false ∧
    hasPermission w "publish" = Except.ok false ∧
    hasPermission z a = Except.ok false ∧
    hasPermission zp a = Except.error "TypeError" := by
  refine ⟨?_, ?_, ?_, by simp [hasPermission, rolePermissions, hv],
          by simp [hasPermission, rolePermissions, hw],
          by simp [hasPermission, rolePermissions, hw], ?_, ?_⟩
  · simp [hasPermission, rolePermissions, hu, hv, Except.map, List.contains_cons,
          beq_decide, Bool.or_assoc]
    try ac_rfl
  · simp [hasPermission, rolePermissions, hv, hw, Except.map, List.contains_cons,
          beq_decide, Bool.or_assoc]
    try ac_rfl
  · simp [hasPermission, rolePermissions, hw, List.contains_cons, beq_decide, Bool.or_assoc]
    try ac_rfl
  · have hz4m : z.role ∉ objectProtoNames := by simpa using hz4
    simp [hasPermission, rolePermissions, hz1, hz2, hz3, hz4m]
  · have hp4m : zp.role ∈ objectProtoNames := by simpa using hp4
    simp [hasPermission, rolePermissions, hp1, hp2, hp3, hp4m]

/-- C8 witness: the table at action `delete`, with the unknown
non-prototype role `viewer` and the prototype-member role `toString`. -/
theorem hasPermission_table_witness :
    hasPermission (userWithRole "admin") "delete" =
      (hasPermission (userWithRole "editor") "delete").map
        (fun b => b || "delete" == "manage_users") ∧
    hasPermission (userWithRole "editor") "delete" =
      (hasPermission (userWithRole "author") "delete").map
        (fun b => b || "delete" == "delete" || "delete" == "publish") ∧
    hasPermission (userWithRole "author") "delete" =
      Except.ok ("delete" == "create" || "delete" == "read" || "delete" == "update") ∧
    hasPermission (userWithRole "editor") "manage_users" = Except.ok false ∧
    hasPermission (userWithRole "author") "delete" = Except.ok false ∧
    hasPermission (userWithRole "author") "publish" = Except.ok false ∧
    hasPermission (userWithRole "viewer") "delete" = Except.ok false ∧
    hasPermission (userWithRole "toString") "delete" = Except.error "TypeError" :=
  hasPermission_table (userWithRole "admin") (userWithRole "editor") (userWithRole "author")
    (userWithRole "viewer") (userWithRole "toString") "delete" rfl rfl rfl
    (by decide) (by decide) (by decide) (by decide)
    (by decide) (by decide) (by decide) (by decide)

/-- C9 counterexample: two stored hashes of the same length, both failing
verification, on which the comparison loop of `verifyPassword` runs a
different number of iterations — 1 when the first byte mismatches, 32 when
only the last byte mismatches — so the comparison is not constant time and
does exit early. -/
theorem compare_loop_cex :
    verifyPassword kdfZero "p"
      (b64encode (List.replicate 16 0 ++ (7 :: List.replicate 31 0))) = false ∧
    verifyPassword kdfZero "p"
      (b64encode (List.replicate 16 0 ++ (List.replicate 31 0 ++ [7]))) = false ∧
    verifyCompareSteps kdfZero "p"
      (b64encode (List.replicate 16 0 ++ (7 :: List.replicate 31 0))) = 1 ∧
    verifyCompareSteps kdfZero "p"
      (b64encode (List.replicate 16 0 ++ (List.replicate 31 0 ++ [7]))) = 32 := by
  decide

/-- C9 amended: the byte comparison of `verifyPassword` is correct as a
comparison but exits at the first mismatching byte: for equal-length
inputs it succeeds iff the arrays are equal, and its iteration count is
the full length on equality but `matchingRun + 1` on a mismatch — the
running time grows with the number of leading bytes that match. -/
theorem compareSteps_spec : ∀ (s t : List Nat), s.length = t.length →
    (compareBytes s t = true ↔ s = t) ∧
    compareSteps s t = (if s = t then s.length else matchingRun s t + 1)
  | [], [], _ => by simp [compareBytes, compareSteps]
  | [], b :: bs, h => by simp at h
  | a :: as, [], h => by simp at h
  | a :: as, b :: bs, h => by
    have h' : as.length = bs.length := by simpa using h
    have ih := compareSteps_spec as bs h'
    by_cases hab : a = b
    · subst hab
      constructor
      · simpa [compareBytes] using ih.1
      · by_cases he : as = bs
        · subst he
          simp [compareSteps, ih.2]
          omega
        · have hne : a :: as ≠ a :: bs := by simp [he]
          simp [compareSteps, matchingRun, ih.2, he, hne]
          omega
    · have hne : a :: as ≠ b :: bs := by simp [hab]
      constructor
      · simp [compareBytes, hab, hne]
      · simp [compareSteps, matchingRun, hab, hne]

/-- C9 witness: the amended characterization at a concrete mismatch. -/
theorem compareSteps_spec_witness :
    ([0, 1] : List Nat).length = ([0, 2] : List Nat).length ∧
    ((compareBytes [0, 1] [0, 2] = true ↔ ([0, 1] : List Nat) = [0, 2]) ∧
      compareSteps [0, 1] [0, 2] =
        (if ([0, 1] : List Nat) = [0, 2] then ([0, 1] : List Nat).length
         else matchingRun [0, 1] [0, 2] + 1)) :=
  ⟨by decide, compareSteps_spec [0, 1] [0, 2] (by decide)⟩

/-- C10: for a fresh token, a successful login returns a user view of type
`SafeUser` — the destructuring strips `password_hash` — yet validating the
issued token returns the full stored `User` record, whose `password_hash`
is exactly the stored credential hash that login deliberately removed from
its own return value. -/
theorem validateSession_returns_hash (st : AuthState) (now : Nat) (tok email pw : String)
    (ip ua : Option String) (u0 : User)
    (htok : ∀ s ∈ st.sessions, ¬ s.id = tok)
    (hfind : findUserByEmail st email = some u0)
    (hverify : mockVerifyPassword pw u0.password_hash = true) :
    login st now tok email pw ip ua =
      Except.ok (safeUserOf { u0 with last_login := some now },
        { id := tok, user_id := u0.id, expires_at := now + sessionTTL,
          created_at := now, ip_address := ip, user_agent := ua },
        { st with
            users := usersSet st.users { u0 with last_login := some now },
            sessions := sessionsSet st.sessions
              { id := tok, user_id := u0.id, expires_at := now + sessionTTL,
                created_at := now, ip_address := ip, user_agent := ua } }) ∧
    (validateSession
        { st with
            users := usersSet st.users { u0 with last_login := some now },
            sessions := sessionsSet st.sessions
              { id := tok, user_id := u0.id, expires_at := now + sessionTTL,
                created_at := now, ip_address := ip, user_agent := ua } } now tok).1 =
      some { u0 with last_login := some now } ∧
    ({ u0 with last_login := some now } : User).password_hash = u0.password_hash := by
  simp only [findUserByEmail] at hfind
  refine ⟨by simp [login, hfind, hverify], ?_, rfl⟩
  have hfnone : st.sessions.find? (fun s => s.id == tok) = none := by
    rw [List.find?_eq_none]
    intro s hs
    simp [htok s hs]
  have hany : st.sessions.any (fun t => t.id == tok) = false := by
    rw [List.any_eq_false]
    intro s hs
    simp [htok s hs]
  have hmem : u0 ∈ st.users := List.mem_of_find?_eq_some hfind
  have hanyu : st.users.any (fun v => v.id == u0.id) = true := by
    rw [List.any_eq_true]
    exact ⟨u0, hmem, by simp⟩
  have happ : (st.sessions ++
      [({ id := tok, user_id := u0.id, expires_at := now + sessionTTL,
          created_at := now, ip_address := ip, user_agent := ua } : Session)]).find?
        (fun s => s.id == tok) =
      some { id := tok, user_id := u0.id, expires_at := now + sessionTTL,
             created_at := now, ip_address := ip, user_agent := ua } :=
    find?_append_single _ _ _ hfnone (by simp)
  simp only [validateSession, sessionsSet, hany, Bool.false_eq_true, if_false, happ]
  rw [if_neg (show ¬ now + sessionTTL < now by omega)]
  simp only [usersSet, hanyu, if_true]
  exact find?_user_map st.users u0.id _ rfl ⟨u0, hmem, rfl⟩

/-- C10 witness: after the concrete login of `aliceUser`, validating its
token returns the full record with the stored hash. -/
theorem validateSession_returns_hash_witness :
    (validateSession postLoginState 3 "t0").1 =
      some { aliceUser with last_login := some 3 } ∧
    ({ aliceUser with last_login := some 3 } : User).password_hash = "hashed_Secure123" := by
  have h := validateSession_returns_hash oneUserState 3 "t0" "a@b.com" "Secure123"
    none none aliceUser (by decide) (by decide) (by decide)
  exact ⟨h.2.1, rfl⟩
